import Mathlib

/-!
Verification development for the recurrence and scheduling engine of the
ai-todolist repository (src/lib/scheduling.ts, src/types/todo.ts).

The engine manipulates JavaScript `Date` values.  A `Date` is modelled as an
unbounded integer time value (milliseconds since the Unix epoch); calendar
field access and field update follow the ECMAScript specification
(Day/TimeWithinDay, YearFromTime, MonthFromTime, DateFromTime, MakeDay) on
the proleptic Gregorian calendar with no time zone offset.  Host facilities
that are nondeterministic or implementation-defined — `uuidv4()`, the
ambient clock `new Date()`, `Date`-from-string parsing and
`toLocaleDateString` — are passed in as explicit parameters.
-/

abbrev JSDate := Int

def msPerDay : Int := 86400000

/-- ECMAScript Day(t). -/
def dayOf (t : JSDate) : Int := t / msPerDay

/-- ECMAScript TimeWithinDay(t). -/
def msOfDay (t : JSDate) : Int := t % msPerDay

def isLeap (y : Int) : Bool := decide (y % 4 = 0 ∧ (y % 100 ≠ 0 ∨ y % 400 = 0))

/-- Number of leap years in (some fixed base, y); chosen so that
`daysBeforeYear` has its zero at the epoch 1970-01-01. -/
def leapsBefore (y : Int) : Int := (y - 1) / 4 - (y - 1) / 100 + (y - 1) / 400

/-- Day number of January 1 of year `y` (day 0 = 1970-01-01). -/
def daysBeforeYear (y : Int) : Int := 365 * (y - 1970) + (leapsBefore y - 477)

/-- Cumulative days before 0-based month `m` in a non-leap year. -/
def daysBeforeMonthNL : Nat → Int
  | 0 => 0 | 1 => 31 | 2 => 59 | 3 => 90 | 4 => 120 | 5 => 151
  | 6 => 181 | 7 => 212 | 8 => 243 | 9 => 273 | 10 => 304 | _ => 334

def daysBeforeMonth (y : Int) (m : Nat) : Int :=
  daysBeforeMonthNL m + (if 2 ≤ m ∧ isLeap y then 1 else 0)

/-- ECMAScript MakeDay: day number of (year, month, date) with arbitrary
(possibly out-of-range) month and date arguments, normalized JS-style:
the month rolls into the year and an out-of-range day-of-month rolls into
adjacent months (e.g. (2024, 1, 31) is 2024-03-02). -/
def makeDay (y m d : Int) : Int :=
  daysBeforeYear (y + m / 12) + daysBeforeMonth (y + m / 12) (m % 12).toNat + d - 1

/-- First-guess year for `yearFromDay` (400 Gregorian years = 146097 days). -/
def yearGuess (z : Int) : Int := 1970 + (400 * z) / 146097

/-- ECMAScript YearFromTime on day numbers: the unique `y` with
`daysBeforeYear y ≤ z < daysBeforeYear (y+1)`, found near the guess. -/
def yearFromDay (z : Int) : Int :=
  if z < daysBeforeYear (yearGuess z - 2) then yearGuess z - 3
  else if z < daysBeforeYear (yearGuess z - 1) then yearGuess z - 2
  else if z < daysBeforeYear (yearGuess z) then yearGuess z - 1
  else if z < daysBeforeYear (yearGuess z + 1) then yearGuess z
  else if z < daysBeforeYear (yearGuess z + 2) then yearGuess z + 1
  else if z < daysBeforeYear (yearGuess z + 3) then yearGuess z + 2
  else yearGuess z + 3

/-- ECMAScript DayWithinYear. -/
def doyOf (z : Int) : Int := z - daysBeforeYear (yearFromDay z)

/-- ECMAScript MonthFromTime: month index from day-of-year, with the
in-leap-year flag passed as 0 or 1 as in the spec. -/
def monthFromDoy (l : Int) (doy : Int) : Nat :=
  if doy < 31 then 0
  else if doy < 59 + l then 1
  else if doy < 90 + l then 2
  else if doy < 120 + l then 3
  else if doy < 151 + l then 4
  else if doy < 181 + l then 5
  else if doy < 212 + l then 6
  else if doy < 243 + l then 7
  else if doy < 273 + l then 8
  else if doy < 304 + l then 9
  else if doy < 334 + l then 10
  else 11

def monthOfDay (z : Int) : Nat :=
  monthFromDoy (if isLeap (yearFromDay z) then 1 else 0) (doyOf z)

/-- ECMAScript DateFromTime on day numbers (1-based day of month). -/
def dateOfDay (z : Int) : Int := doyOf z - daysBeforeMonth (yearFromDay z) (monthOfDay z) + 1

/-- JS `date.getFullYear()` (no time zone). -/
def getFullYear (t : JSDate) : Int := yearFromDay (dayOf t)

/-- JS `date.getMonth()` (0-based month). -/
def getMonth (t : JSDate) : Int := (monthOfDay (dayOf t) : Int)

/-- JS `date.getDate()` (1-based day of month). -/
def getDate (t : JSDate) : Int := dateOfDay (dayOf t)

/-- JS `date.getDay()`: ECMAScript WeekDay(t) = (Day(t) + 4) modulo 7. -/
def getDay (t : JSDate) : Int := (dayOf t + 4) % 7

/-- JS `date.setDate(d)`: MakeDay with the stored year/month and the new
day-of-month, keeping the time within the day. -/
def setDate (t : JSDate) (d : Int) : JSDate :=
  makeDay (getFullYear t) (getMonth t) d * msPerDay + msOfDay t

/-- JS `date.setMonth(m)`. -/
def setMonth (t : JSDate) (m : Int) : JSDate :=
  makeDay (getFullYear t) m (getDate t) * msPerDay + msOfDay t

/-- JS `date.setFullYear(y)`. -/
def setFullYear (t : JSDate) (y : Int) : JSDate :=
  makeDay y (getMonth t) (getDate t) * msPerDay + msOfDay t

/-- JS `new Date(y, m, d)` at midnight, including the ECMAScript
two-digit-year rule (0 ≤ y ≤ 99 means 1900 + y). -/
def newDateYMD (y m d : Int) : JSDate :=
  makeDay (if 0 ≤ y ∧ y ≤ 99 then 1900 + y else y) m d * msPerDay

/- ===== Data model (src/types/todo.ts) ===== -/

inductive Priority | low | medium | high
deriving DecidableEq, Repr

inductive TodoStatus | pending | completed | delayed | cancelled
deriving DecidableEq, Repr

inductive InstanceStatus | scheduled | completed | delayed | cancelled
deriving DecidableEq, Repr

inductive Frequency | daily | weekly | monthly | yearly | custom
deriving DecidableEq, Repr

inductive TimeUnit | days | weeks | months | years
deriving DecidableEq, Repr

structure RecurringPattern where
  frequency : Frequency
  interval : Int
  unit : TimeUnit
  endDate : Option JSDate := none
  maxOccurrences : Option Int := none
  nextDueDate : Option JSDate := none
deriving DecidableEq, Repr

structure TodoInstance where
  id : String
  parentId : String
  scheduledDate : JSDate
  actualCompletedDate : Option JSDate := none
  status : InstanceStatus
  delayReason : Option String := none
deriving DecidableEq, Repr

structure Todo where
  id : String
  content : String
  originalInput : String
  priority : Priority
  status : TodoStatus
  dueDate : Option JSDate := none
  category : Option String := none
  isRecurring : Bool
  recurringPattern : Option RecurringPattern := none
  createdAt : JSDate
  completedAt : Option JSDate := none
  aiSuggestions : List String := []
  instances : Option (List TodoInstance) := none
  parentId : Option String := none
deriving DecidableEq, Repr

structure ParsedRecurring where
  frequency : String
  interval : Int
  unit : String
  description : String
deriving DecidableEq, Repr

structure ParsedTodo where
  content : String
  priority : Priority
  category : String
  dueDate : Option String := none
  isRecurring : Bool
  recurringPattern : Option ParsedRecurring := none
  context : Option String := none
  urgency : Option String := none
deriving DecidableEq, Repr

/- ===== SchedulingEngine.calculateNextDueDate ===== -/

/-- Body of `calculateNextDueDate` once the base date is resolved:
the switch over `pattern.unit`. -/
def nextFromBase (pattern : RecurringPattern) (baseDate : JSDate) : JSDate :=
  match pattern.unit with
  | TimeUnit.days => setDate baseDate (getDate baseDate + pattern.interval)
  | TimeUnit.weeks => setDate baseDate (getDate baseDate + pattern.interval * 7)
  | TimeUnit.months => setMonth baseDate (getMonth baseDate + pattern.interval)
  | TimeUnit.years => setFullYear baseDate (getFullYear baseDate + pattern.interval)

/-- `SchedulingEngine.calculateNextDueDate(pattern, lastDate?)`; the ambient
clock read `new Date()` used when `lastDate` is absent is the explicit
parameter `now`. -/
def calculateNextDueDate (pattern : RecurringPattern) (now : JSDate)
    (lastDate : Option JSDate) : JSDate :=
  nextFromBase pattern (lastDate.getD now)

/- ===== String machinery for the regex dispatch tables ===== -/

/-- Case-folded character list of a string (models the `/i` regex flag /
`toLowerCase()`; the engine's patterns are ASCII). -/
def lowerChars (s : String) : List Char := s.toList.map Char.toLower

/-- Substring containment (an unanchored regex over literal text matches
iff its text occurs somewhere in the subject). -/
def containsSub (hay pat : List Char) : Bool :=
  hay.tails.any (fun t => pat.isPrefixOf t)

/-- Does `t` start with digits⁺ followed by " month" (tail of the regex
`/every (\d+) months?/` after the literal "every ")?  Digits and the space
are disjoint, so the greedy `\d+` needs no backtracking. -/
def digitsMonthTail (t : List Char) : Bool :=
  !(t.takeWhile Char.isDigit).isEmpty
    && (" month".toList.isPrefixOf (t.dropWhile Char.isDigit))

/-- Does the regex `/every (\d+) months?/i` match at this position? -/
def everyMonthsAt (t : List Char) : Bool :=
  "every ".toList.isPrefixOf t && digitsMonthTail (t.drop 6)

/-- Unanchored match of `/every (\d+) months?/i` (subject already
case-folded). -/
def matchesEveryNMonths (l : List Char) : Bool :=
  l.tails.any everyMonthsAt

/-- First maximal digit run in the text: the capture of
`text.match(/(\d+)/)`. -/
def firstDigitRun : List Char → Option (List Char)
  | [] => none
  | c :: rest =>
      if c.isDigit then some ((c :: rest).takeWhile Char.isDigit)
      else firstDigitRun rest

/-- Numeric value of a digit run (JS `parseInt` on a digit string). -/
def natOfDigits (l : List Char) : Nat :=
  l.foldl (fun acc c => 10 * acc + (c.toNat - 48)) 0

/-- `text.match(/(\d+)/)?.[1]` parsed with `parseInt`. -/
def firstNumber (l : List Char) : Option Nat :=
  (firstDigitRun l).map natOfDigits

/-- Anchored match of `/^in (\d+) months?$/i` (subject already
case-folded). -/
def matchInMonths : List Char → Bool
  | 'i' :: 'n' :: ' ' :: rest =>
      !(rest.takeWhile Char.isDigit).isEmpty
        && ((rest.dropWhile Char.isDigit == " month".toList)
            || (rest.dropWhile Char.isDigit == " months".toList))
  | _ => false

/-- Index of a (lower-cased) weekday name in the `dayNames` array of the
weekday handler; `none` when the text is not a weekday name (so the
anchored weekday alternation regex does not match). -/
def weekdayIndex (l : List Char) : Option Int :=
  if l = "sunday".toList then some 0
  else if l = "monday".toList then some 1
  else if l = "tuesday".toList then some 2
  else if l = "wednesday".toList then some 3
  else if l = "thursday".toList then some 4
  else if l = "friday".toList then some 5
  else if l = "saturday".toList then some 6
  else none

/- ===== SchedulingEngine.parseRecurringPattern ===== -/

/-- The ordered rule table of `parseRecurringPattern`, on the case-folded
subject `low`; `orig` is the original character sequence, against which the
"every N months" handler runs `description.match(/(\d+)/)` (the FIRST digit
run anywhere in the description). -/
def patternTable (low orig : List Char) : Option RecurringPattern :=
  if containsSub low "twice a year".toList then
    some { frequency := Frequency.custom, interval := 6, unit := TimeUnit.months }
  else if matchesEveryNMonths low then
    some { frequency := Frequency.monthly, interval := ((firstNumber orig).getD 1 : Nat),
           unit := TimeUnit.months }
  else if containsSub low "monthly".toList || containsSub low "every month".toList then
    some { frequency := Frequency.monthly, interval := 1, unit := TimeUnit.months }
  else if containsSub low "quarterly".toList || containsSub low "every quarter".toList then
    some { frequency := Frequency.custom, interval := 3, unit := TimeUnit.months }
  else if containsSub low "annually".toList || containsSub low "yearly".toList
      || containsSub low "every year".toList then
    some { frequency := Frequency.yearly, interval := 1, unit := TimeUnit.years }
  else if containsSub low "weekly".toList || containsSub low "every week".toList then
    some { frequency := Frequency.weekly, interval := 1, unit := TimeUnit.weeks }
  else if containsSub low "daily".toList || containsSub low "every day".toList then
    some { frequency := Frequency.daily, interval := 1, unit := TimeUnit.days }
  else none

/-- `SchedulingEngine.parseRecurringPattern(description)`. -/
def parseRecurringPattern (description : String) : Option RecurringPattern :=
  patternTable (lowerChars description) description.toList

/- ===== SchedulingEngine.parseRelativeDate ===== -/

/-- `const today = new Date(now.getFullYear(), now.getMonth(), now.getDate())`. -/
def todayFrom (now : JSDate) : JSDate :=
  newDateYMD (getFullYear now) (getMonth now) (getDate now)

/-- The "this weekend" handler: next Saturday (0 days if today is
Saturday); JS `%` on the non-negative operand agrees with `Int.emod`. -/
def weekendTarget (today : JSDate) : JSDate :=
  today + ((6 - getDay today) % 7) * msPerDay

/-- The weekday handler: days until the next occurrence of the target
weekday, with `|| 7` sending 0 to 7. -/
def weekdayTarget (today : JSDate) (targetDay : Int) : JSDate :=
  today + (if (targetDay - getDay today + 7) % 7 = 0 then 7
           else (targetDay - getDay today + 7) % 7) * msPerDay

/-- The ordered rule table of `parseRelativeDate`, on the case-folded whole
subject `ls` (all the source regexes are anchored `^...$` with the `/i`
flag); `today` is the day-truncated reference time, `isoParse` the
host `new Date(string)` fallback applied to the original string. -/
def relativeTable (isoParse : String → Option JSDate) (dateString : String)
    (today : JSDate) (ls : List Char) : Option JSDate :=
  if ls = "today".toList then some today
  else if ls = "tomorrow".toList then some (today + 24 * 60 * 60 * 1000)
  else if ls = "this week".toList then some (today + 7 * 24 * 60 * 60 * 1000)
  else if ls = "next week".toList then some (today + 14 * 24 * 60 * 60 * 1000)
  else if ls = "this weekend".toList then some (weekendTarget today)
  else if ls = "next month".toList then
    some (newDateYMD (getFullYear today) (getMonth today + 1) (getDate today))
  else if matchInMonths ls then
    some (newDateYMD (getFullYear today) (getMonth today + 1) (getDate today))
  else if ls = "before summer".toList then some (newDateYMD (getFullYear today) 5 1)
  else if ls = "by spring".toList then some (newDateYMD (getFullYear today) 2 20)
  else
    match weekdayIndex ls with
    | some targetDay => some (weekdayTarget today targetDay)
    | none => isoParse dateString

/-- `SchedulingEngine.parseRelativeDate(dateString)`; the ambient clock is
the explicit parameter `now`, and the implementation-defined
`new Date(dateString)` ISO fallback is the parameter `isoParse`. -/
def parseRelativeDate (isoParse : String → Option JSDate) (now : JSDate)
    (dateString : String) : Option JSDate :=
  relativeTable isoParse dateString (todayFrom now) (lowerChars dateString)

/- ===== SchedulingEngine.generateRecurringInstances ===== -/

/-- The generation loop: `count` iterations, each advancing `currentDate`
through `calculateNextDueDate` and pushing a fresh `scheduled` instance;
`uuids idx` models the `uuidv4()` call of iteration `idx`. -/
def genInstances (uuids : Nat → String) (pid : String) (pattern : RecurringPattern)
    (now : JSDate) (current : JSDate) (idx : Nat) : Nat → List TodoInstance
  | 0 => []
  | n + 1 =>
      { id := uuids idx, parentId := pid,
        scheduledDate := calculateNextDueDate pattern now (some current),
        status := InstanceStatus.scheduled }
        :: genInstances uuids pid pattern now
            (calculateNextDueDate pattern now (some current)) (idx + 1) n

/-- `SchedulingEngine.generateRecurringInstances(todo, count = 5)`; `uuids`
models the `uuidv4()` supply and `now` the `new Date()` fallback when the
todo has no due date. -/
def generateRecurringInstances (uuids : Nat → String) (now : JSDate) (todo : Todo)
    (count : Nat := 5) : List TodoInstance :=
  match todo.isRecurring, todo.recurringPattern with
  | true, some pattern => genInstances uuids todo.id pattern now (todo.dueDate.getD now) 0 count
  | _, _ => []

/- ===== SchedulingEngine.createTodoFromParsed ===== -/

/-- The `if (todo.dueDate)` mutation of `todo.recurringPattern.nextDueDate`. -/
def withNextDue (pattern : RecurringPattern) (now : JSDate)
    (dueDate : Option JSDate) : RecurringPattern :=
  match dueDate with
  | some dd => { pattern with nextDueDate := some (calculateNextDueDate pattern now (some dd)) }
  | none => pattern

/-- The base todo object literal of `createTodoFromParsed`, after the
due-date parsing step (`dueDate` is unset when `parseRelativeDate`
returns null). -/
def baseTodo (uuids : Nat → String) (isoParse : String → Option JSDate)
    (now : JSDate) (parsed : ParsedTodo) : Todo :=
  { id := uuids 0, content := parsed.content, originalInput := parsed.content,
    priority := parsed.priority, status := TodoStatus.pending,
    category := some parsed.category, isRecurring := parsed.isRecurring,
    createdAt := now, aiSuggestions := [],
    dueDate := match parsed.dueDate with
      | some ds => parseRelativeDate isoParse now ds
      | none => none }

/-- The recurring-pattern step of `createTodoFromParsed`: on a successful
parse, attach the pattern (with `nextDueDate` when a due date exists) and
the five generated instances; any failure leaves the todo as built. -/
def attachRecurring (uuids : Nat → String) (now : JSDate) (parsed : ParsedTodo)
    (todo : Todo) : Todo :=
  match parsed.isRecurring, parsed.recurringPattern with
  | true, some rp =>
      match parseRecurringPattern rp.description with
      | some pattern =>
          { todo with
            recurringPattern := some (withNextDue pattern now todo.dueDate),
            instances := some (generateRecurringInstances (fun i => uuids (i + 1)) now
              { todo with recurringPattern := some (withNextDue pattern now todo.dueDate) } 5) }
      | none => todo
  | _, _ => todo

/-- `SchedulingEngine.createTodoFromParsed(parsed)`; `uuids 0` is the id of
the todo itself, `uuids (i+1)` the id of the i-th generated instance. -/
def createTodoFromParsed (uuids : Nat → String) (isoParse : String → Option JSDate)
    (now : JSDate) (parsed : ParsedTodo) : Todo :=
  attachRecurring uuids now parsed (baseTodo uuids isoParse now parsed)

/- ===== SchedulingEngine.rescheduleRecurringTodo ===== -/

/-- The in-place update of the target instance: new date, `delayed` status,
delay reason citing the original date (`fmt` models the host
`toLocaleDateString`). -/
def delayedCopy (fmt : JSDate → String) (inst : TodoInstance)
    (newDate : JSDate) : TodoInstance :=
  { inst with
    scheduledDate := newDate
    status := InstanceStatus.delayed
    delayReason := some ("Rescheduled from " ++ fmt inst.scheduledDate) }

/-- The propagation shift of one future instance. -/
def shiftInstance (delta : Int) (inst : TodoInstance) : TodoInstance :=
  { inst with scheduledDate := inst.scheduledDate + delta }

/-- The instance-array edit of `rescheduleRecurringTodo`: replace index `k`
by the delayed copy, then (when propagating) shift every later index by
`newDate - inst.scheduledDate`, exactly as the `for` loop from
`instanceIndex + 1` does. -/
def applyReschedule (fmt : JSDate → String) (insts : List TodoInstance) (k : Nat)
    (inst : TodoInstance) (newDate : JSDate) (propagate : Bool) : List TodoInstance :=
  if propagate then
    (insts.set k (delayedCopy fmt inst newDate)).take (k + 1)
      ++ ((insts.set k (delayedCopy fmt inst newDate)).drop (k + 1)).map
          (shiftInstance (newDate - inst.scheduledDate))
  else insts.set k (delayedCopy fmt inst newDate)

/-- `SchedulingEngine.rescheduleRecurringTodo(todo, instanceId, newDate,
propagateToFuture = false)`; `fmt` models `toLocaleDateString`.  The todo is
returned unchanged when it has no instance array or `findIndex` misses. -/
def rescheduleRecurringTodo (fmt : JSDate → String) (todo : Todo) (instanceId : String)
    (newDate : JSDate) (propagateToFuture : Bool := false) : Todo :=
  match todo.instances with
  | none => todo
  | some insts =>
      match insts.findIdx? (fun inst => inst.id == instanceId) with
      | none => todo
      | some k =>
          match insts[k]? with
          | none => todo
          | some inst =>
              { todo with
                instances := some (applyReschedule fmt insts k inst newDate propagateToFuture) }

/- ===== Concrete fixtures used by example parts and witnesses ===== -/

/-- Trivial uuid supply for concrete instantiations. -/
def noUuids : Nat → String := fun _ => ""

/-- Trivial host date-string parser for concrete instantiations. -/
def noIso : String → Option JSDate := fun _ => none

/-- Concrete stand-in for the host `toLocaleDateString`. -/
def fmt0 : JSDate → String := fun _ => "1/31/2024"

def c3Pattern : RecurringPattern :=
  { frequency := Frequency.monthly, interval := 6, unit := TimeUnit.months }

/-- The §8 example task: due 2024-01-01, repeating every 6 months. -/
def c3Task : Todo :=
  { id := "task-1"
    content := "renew insurance"
    originalInput := "renew insurance"
    priority := Priority.medium
    status := TodoStatus.pending
    dueDate := some (newDateYMD 2024 0 1)
    isRecurring := true
    recurringPattern := some c3Pattern
    createdAt := 0 }

/-- A non-recurring task (for the empty-generation case). -/
def c3TaskPlain : Todo :=
  { id := "task-2"
    content := "one-off"
    originalInput := "one-off"
    priority := Priority.low
    status := TodoStatus.pending
    isRecurring := false
    createdAt := 0 }

/-- A parsed input flagged recurring whose description matches no rule. -/
def c2Parsed : ParsedTodo :=
  { content := "water the plants"
    priority := Priority.low
    category := "home"
    isRecurring := true
    recurringPattern := some
      { frequency := "custom", interval := 2, unit := "weeks",
        description := "whenever it rains" } }

def instA : TodoInstance :=
  { id := "occ-a", parentId := "task-1", scheduledDate := newDateYMD 2024 6 1,
    status := InstanceStatus.scheduled }

def instB : TodoInstance :=
  { id := "occ-b", parentId := "task-1", scheduledDate := newDateYMD 2025 0 1,
    status := InstanceStatus.scheduled }

def instC : TodoInstance :=
  { id := "occ-c", parentId := "task-1", scheduledDate := newDateYMD 2025 6 1,
    status := InstanceStatus.scheduled }

/-- A recurring task with three materialized occurrences. -/
def todoWithInstances : Todo :=
  { id := "task-1"
    content := "renew insurance"
    originalInput := "renew insurance"
    priority := Priority.medium
    status := TodoStatus.pending
    isRecurring := true
    recurringPattern := some c3Pattern
    createdAt := 0
    instances := some [instA, instB, instC] }

/- ===== Calendar lemmas ===== -/

theorem yearGuess_window (z : Int) :
    daysBeforeYear (yearGuess z - 3) ≤ z ∧ z < daysBeforeYear (yearGuess z + 4) := by
  unfold yearGuess daysBeforeYear leapsBefore
  omega

theorem yearFromDay_bracket (z : Int) :
    daysBeforeYear (yearFromDay z) ≤ z ∧ z < daysBeforeYear (yearFromDay z + 1) := by
  have hw := yearGuess_window z
  have e1 := congrArg daysBeforeYear (by ring : yearGuess z - 3 + 1 = yearGuess z - 2)
  have e2 := congrArg daysBeforeYear (by ring : yearGuess z - 2 + 1 = yearGuess z - 1)
  have e3 := congrArg daysBeforeYear (by ring : yearGuess z - 1 + 1 = yearGuess z)
  have e5 := congrArg daysBeforeYear (by ring : yearGuess z + 1 + 1 = yearGuess z + 2)
  have e6 := congrArg daysBeforeYear (by ring : yearGuess z + 2 + 1 = yearGuess z + 3)
  have e7 := congrArg daysBeforeYear (by ring : yearGuess z + 3 + 1 = yearGuess z + 4)
  unfold yearFromDay
  split_ifs <;> omega

theorem ite_le_const (c : Prop) [Decidable c] (a b n : Nat) (ha : a ≤ n) (hb : b ≤ n) :
    (if c then a else b) ≤ n := by
  split
  · exact ha
  · exact hb

theorem monthFromDoy_le (l doy : Int) : monthFromDoy l doy ≤ 11 := by
  unfold monthFromDoy
  repeat first
  | apply ite_le_const
  | decide

/-- Recomposing the civil fields of a day number through MakeDay returns
the day number: getters and MakeDay are mutually inverse. -/
theorem civil_roundtrip (z : Int) :
    makeDay (yearFromDay z) (monthOfDay z : Int) (dateOfDay z) = z := by
  have hm : monthOfDay z ≤ 11 := monthFromDoy_le _ _
  have h1 : ((monthOfDay z : Nat) : Int) / 12 = 0 := by omega
  have h2 : (((monthOfDay z : Nat) : Int) % 12).toNat = monthOfDay z := by omega
  unfold makeDay
  rw [h1, h2]
  unfold dateOfDay doyOf
  simp only [add_zero]
  omega

theorem daysBeforeYear_succ (y : Int) :
    daysBeforeYear (y + 1) = daysBeforeYear y + (if isLeap y then 366 else 365) := by
  unfold daysBeforeYear leapsBefore isLeap
  split_ifs with h
  · simp only [decide_eq_true_eq] at h
    omega
  · simp only [decide_eq_true_eq, not_and, not_or] at h
    omega

theorem daysBeforeMonthNL_succ (n : Nat) (h : n ≤ 10) :
    daysBeforeMonthNL n + 28 ≤ daysBeforeMonthNL (n + 1) := by
  interval_cases n <;> decide

theorem leapAdjust_mono (y : Int) (n : Nat) :
    (if 2 ≤ n ∧ isLeap y then (1 : Int) else 0)
      ≤ (if 2 ≤ n + 1 ∧ isLeap y then (1 : Int) else 0) := by
  split_ifs with h1 h2
  · exact le_refl 1
  · exact absurd ⟨by omega, h1.2⟩ h2
  · norm_num
  · exact le_refl 0

theorem daysBeforeMonth_succ (y : Int) (n : Nat) (h : n ≤ 10) :
    daysBeforeMonth y n + 28 ≤ daysBeforeMonth y (n + 1) := by
  have h1 := daysBeforeMonthNL_succ n h
  have h2 := leapAdjust_mono y n
  unfold daysBeforeMonth
  omega

/-- Adding one month through MakeDay advances the day number by at least 28
(a month length), for arbitrary month and day arguments. -/
theorem makeDay_month_succ (y m d : Int) : makeDay y m d + 28 ≤ makeDay y (m + 1) d := by
  unfold makeDay
  rcases Int.lt_or_le (m % 12) 11 with hr | hr
  · have e1 : (m + 1) / 12 = m / 12 := by omega
    have e2 : ((m + 1) % 12).toNat = (m % 12).toNat + 1 := by omega
    rw [e1, e2]
    have h0 : (m % 12).toNat ≤ 10 := by omega
    have key := daysBeforeMonth_succ (y + m / 12) (m % 12).toNat h0
    omega
  · have e1 : (m + 1) / 12 = m / 12 + 1 := by omega
    have e2 : ((m + 1) % 12).toNat = 0 := by omega
    have e3 : (m % 12).toNat = 11 := by omega
    rw [e1, e2, e3]
    have hstep := daysBeforeYear_succ (y + m / 12)
    have e4 : y + m / 12 + 1 = y + (m / 12 + 1) := by ring
    rw [e4] at hstep
    have v11 : daysBeforeMonthNL 11 = 334 := rfl
    have v0 : daysBeforeMonthNL 0 = 0 := rfl
    unfold daysBeforeMonth
    split_ifs at * <;> omega

theorem makeDay_month_add (y m d i : Int) (hi : 1 ≤ i) :
    makeDay y m d + 28 ≤ makeDay y (m + i) d := by
  have key : ∀ k : Nat, makeDay y m d + 28 ≤ makeDay y (m + 1 + (k : Int)) d := by
    intro k
    induction k with
    | zero => simpa using makeDay_month_succ y m d
    | succ n ih =>
      have h2 := makeDay_month_succ y (m + 1 + (n : Int)) d
      have e : m + 1 + (n : Int) + 1 = m + 1 + ((n + 1 : Nat) : Int) := by push_cast; ring
      rw [e] at h2
      omega
  have hk := key (i - 1).toNat
  have e : m + 1 + ((i - 1).toNat : Int) = m + i := by omega
  rw [e] at hk
  exact hk

theorem makeDay_date_add (y m d i : Int) : makeDay y m (d + i) = makeDay y m d + i := by
  unfold makeDay; ring

theorem makeDay_year_add (y m d i : Int) : makeDay (y + i) m d = makeDay y (m + 12 * i) d := by
  unfold makeDay
  have e1 : (m + 12 * i) / 12 = m / 12 + i := by omega
  have e2 : (m + 12 * i) % 12 = m % 12 := by omega
  rw [e1, e2]
  ring_nf

/-- Millisecond decomposition of a time value. -/
theorem ms_decomp (t : JSDate) : msPerDay * dayOf t + msOfDay t = t :=
  Int.ediv_add_emod t msPerDay

theorem msOfDay_nonneg (t : JSDate) : 0 ≤ msOfDay t :=
  Int.emod_nonneg t (by decide)

/-- The getters of a time value recompose to its day number. -/
theorem getters_roundtrip (t : JSDate) :
    makeDay (getFullYear t) (getMonth t) (getDate t) = dayOf t :=
  civil_roundtrip (dayOf t)

/- ===== Strictness of calculateNextDueDate ===== -/

/-- `setDate(getDate() + i)` is exactly a shift by `i` days. -/
theorem setDate_shift (t i : Int) : setDate t (getDate t + i) = t + i * msPerDay := by
  have h1 := getters_roundtrip t
  have h2 := ms_decomp t
  unfold setDate
  rw [makeDay_date_add, h1]
  unfold msPerDay at h2 ⊢
  linear_combination h2

/-- `setMonth(getMonth() + i)` lands strictly later for `i ≥ 1`. -/
theorem setMonth_gt (t i : Int) (hi : 1 ≤ i) : t < setMonth t (getMonth t + i) := by
  have h1 := getters_roundtrip t
  have h2 := ms_decomp t
  have h3 := makeDay_month_add (getFullYear t) (getMonth t) (getDate t) i hi
  have h4 := msOfDay_nonneg t
  unfold setMonth
  rw [h1] at h3
  unfold msPerDay at h2 ⊢
  omega

/-- `setFullYear(getFullYear() + i)` lands strictly later for `i ≥ 1`. -/
theorem setFullYear_gt (t i : Int) (hi : 1 ≤ i) : t < setFullYear t (getFullYear t + i) := by
  have hy := makeDay_year_add (getFullYear t) (getMonth t) (getDate t) i
  have h3 := makeDay_month_add (getFullYear t) (getMonth t) (getDate t) (12 * i) (by omega)
  have h1 := getters_roundtrip t
  have h2 := ms_decomp t
  have h4 := msOfDay_nonneg t
  unfold setFullYear
  rw [hy]
  rw [h1] at h3
  unfold msPerDay at h2 ⊢
  omega

theorem nextFromBase_gt (pattern : RecurringPattern) (base : JSDate)
    (hi : 1 ≤ pattern.interval) : base < nextFromBase pattern base := by
  unfold nextFromBase
  cases hu : pattern.unit
  · show base < setDate base (getDate base + pattern.interval)
    rw [setDate_shift]
    unfold msPerDay
    linarith
  · show base < setDate base (getDate base + pattern.interval * 7)
    rw [setDate_shift]
    unfold msPerDay
    linarith
  · exact setMonth_gt base pattern.interval hi
  · exact setFullYear_gt base pattern.interval hi

theorem calculateNextDueDate_gt (pattern : RecurringPattern) (now anchor : JSDate)
    (hi : 1 ≤ pattern.interval) : anchor < calculateNextDueDate pattern now (some anchor) := by
  unfold calculateNextDueDate
  simpa using nextFromBase_gt pattern anchor hi

/- ===== Claim C1 ===== -/

/-- C1 (code_bug evidence): `calculateNextDueDate` applied to the pattern
{interval: 1, unit: months} and anchor 2024-01-31 DOES silently roll into
March: JS `setMonth` normalizes 2024-02-31 to 2024-03-02 instead of
clamping to the last valid day of February (2024-02-29), contradicting the
spec's required month-end behavior. -/
theorem c1_month_end_overflow :
    calculateNextDueDate
        { frequency := Frequency.monthly, interval := 1, unit := TimeUnit.months }
        0 (some (newDateYMD 2024 0 31))
      = newDateYMD 2024 2 2
    ∧ newDateYMD 2024 2 2 ≠ newDateYMD 2024 1 29 := by
  constructor
  · rfl
  · decide

/- ===== Claim C5 ===== -/

/-- C5: for every recurrence pattern with interval ≥ 1 and every anchor
date, `calculateNextDueDate(pattern, anchor)` returns a date strictly after
the anchor (and, being a total function of its arguments, never fails). -/
theorem c5_next_strictly_after (pattern : RecurringPattern) (now anchor : JSDate)
    (hi : 1 ≤ pattern.interval) :
    anchor < calculateNextDueDate pattern now (some anchor) :=
  calculateNextDueDate_gt pattern now anchor hi

/-- Witness for C5 at a concrete input. -/
theorem c5_next_strictly_after_witness :
    (1 : Int) ≤ 1
    ∧ newDateYMD 2024 0 31
        < calculateNextDueDate
            { frequency := Frequency.monthly, interval := 1, unit := TimeUnit.months }
            0 (some (newDateYMD 2024 0 31)) :=
  ⟨by decide,
   c5_next_strictly_after
     { frequency := Frequency.monthly, interval := 1, unit := TimeUnit.months }
     0 (newDateYMD 2024 0 31) (by decide)⟩

/- ===== Claim C6 ===== -/

/-- C6 (amended): a pattern returned by `parseRecurringPattern` has
interval ≥ 1 unless the first digit run anywhere in the text denotes 0, in
which case the "every N months" rule yields interval 0 (the handler reads
`description.match(/(\d+)/)` and `parseInt` of "0" is 0). -/
theorem c6_interval_lower_bound (s : String) (p : RecurringPattern)
    (h : parseRecurringPattern s = some p) :
    1 ≤ p.interval ∨ (p.interval = 0 ∧ firstNumber s.toList = some 0) := by
  unfold parseRecurringPattern patternTable at h
  split_ifs at h <;> simp only [Option.some.injEq] at h
  · subst h; left; decide
  · subst h
    rcases hfn : firstNumber s.toList with _ | n
    · left; simp [hfn]
    · rcases n with _ | n
      · right
        exact ⟨by simp, rfl⟩
      · left
        simp
  · subst h; left; decide
  · subst h; left; decide
  · subst h; left; decide
  · subst h; left; decide
  · subst h; left; decide

/-- C6 counterexample: "every 0 months" parses to a pattern with
interval 0, violating the invariant interval ≥ 1 as claimed. -/
theorem c6_counterexample :
    parseRecurringPattern "every 0 months"
      = some { frequency := Frequency.monthly, interval := 0, unit := TimeUnit.months }
    ∧ ¬(1 : Int) ≤ 0 := by
  constructor
  · rfl
  · decide

/-- Witness for C6 at a concrete input. -/
theorem c6_interval_lower_bound_witness :
    1 ≤ ({ frequency := Frequency.weekly, interval := 1,
            unit := TimeUnit.weeks } : RecurringPattern).interval
    ∨ (({ frequency := Frequency.weekly, interval := 1,
            unit := TimeUnit.weeks } : RecurringPattern).interval = 0
        ∧ firstNumber "weekly".toList = some 0) :=
  c6_interval_lower_bound "weekly" _ rfl

/- ===== Claim C7 ===== -/

/-- C7 (amended): when the text matches `/every (\d+) months?/i` and did
not already match the earlier "twice a year" rule, `parseRecurringPattern`
returns frequency monthly and unit months, but the interval is the FIRST
number appearing anywhere in the text (the handler matches `/(\d+)/`
against the whole description), not necessarily the N of the phrase. -/
theorem c7_every_n_months (s : String)
    (h1 : matchesEveryNMonths (lowerChars s) = true)
    (h2 : containsSub (lowerChars s) "twice a year".toList = false) :
    parseRecurringPattern s
      = some { frequency := Frequency.monthly,
               interval := ((firstNumber s.toList).getD 1 : Nat),
               unit := TimeUnit.months } := by
  unfold parseRecurringPattern patternTable
  simp [h1, h2]
  exact h2

/-- C7 counterexample: "1 every 2 months" contains the phrase
"every 2 months" and matches no earlier rule, yet the parsed interval is 1
(the first number in the text), not the phrase's 2. -/
theorem c7_counterexample :
    matchesEveryNMonths (lowerChars "1 every 2 months") = true
    ∧ containsSub (lowerChars "1 every 2 months") "twice a year".toList = false
    ∧ parseRecurringPattern "1 every 2 months"
        = some { frequency := Frequency.monthly, interval := 1, unit := TimeUnit.months }
    ∧ (1 : Int) ≠ 2 :=
  ⟨rfl, rfl, rfl, by decide⟩

/-- Witness for C7 at a concrete input. -/
theorem c7_every_n_months_witness :
    parseRecurringPattern "every 3 months"
      = some { frequency := Frequency.monthly,
               interval := ((firstNumber "every 3 months".toList).getD 1 : Nat),
               unit := TimeUnit.months } :=
  c7_every_n_months "every 3 months" rfl rfl

/- ===== String lemmas for the parser claims ===== -/

theorem toLower_of_digit (c : Char) (h : c.isDigit = true) : c.toLower = c := by
  simp only [Char.isDigit, Bool.and_eq_true, decide_eq_true_eq] at h
  have h57 : c.toNat ≤ 57 := UInt32.toNat_le_of_le (by decide) h.2
  rw [Char.toLower, if_neg]
  omega

theorem takeWhile_append_cons (p : Char → Bool) (l : List Char) (c : Char) (r : List Char)
    (hl : ∀ x ∈ l, p x = true) (hc : p c = false) :
    (l ++ c :: r).takeWhile p = l := by
  induction l with
  | nil => simp [List.takeWhile_cons, hc]
  | cons a as ih =>
      have ha : p a = true := hl a (by simp)
      simp only [List.cons_append, List.takeWhile_cons, ha, if_true]
      rw [ih (fun x hx => hl x (by simp [hx]))]

theorem dropWhile_append_cons (p : Char → Bool) (l : List Char) (c : Char) (r : List Char)
    (hl : ∀ x ∈ l, p x = true) (hc : p c = false) :
    (l ++ c :: r).dropWhile p = c :: r := by
  induction l with
  | nil => simp [List.dropWhile_cons, hc]
  | cons a as ih =>
      have ha : p a = true := hl a (by simp)
      simp only [List.cons_append, List.dropWhile_cons, ha, if_true]
      exact ih (fun x hx => hl x (by simp [hx]))

theorem cons_ne_cons_of_ne {α} {a b : α} (l₁ l₂ : List α) (h : a ≠ b) : a :: l₁ ≠ b :: l₂ := by
  intro he
  injection he with h1 _
  exact h h1

/- ===== Claim C9 ===== -/

/-- C9: for every digit string N, the phrase "in N months" resolves to
exactly the same date as "next month" — the `new Date(year, month + 1,
day)` of the day-truncated reference time — regardless of N: the regex
`/^in (\d+) months?$/i` accepts the number but the handler discards it and
advances exactly one calendar month. -/
theorem c9_in_n_months_ignores_n (now : JSDate) (isoParse : String → Option JSDate)
    (d : Char) (ds : List Char) (hds : ∀ c ∈ d :: ds, c.isDigit = true) :
    parseRelativeDate isoParse now
        (String.mk ('i' :: 'n' :: ' ' :: ((d :: ds) ++ " months".toList)))
      = some (newDateYMD (getFullYear (todayFrom now)) (getMonth (todayFrom now) + 1)
          (getDate (todayFrom now)))
    ∧ parseRelativeDate isoParse now "next month"
      = some (newDateYMD (getFullYear (todayFrom now)) (getMonth (todayFrom now) + 1)
          (getDate (todayFrom now))) := by
  constructor
  · have hlow : lowerChars (String.mk ('i' :: 'n' :: ' ' :: ((d :: ds) ++ " months".toList)))
        = 'i' :: 'n' :: ' ' :: ((d :: ds) ++ " months".toList) := by
      unfold lowerChars
      show (('i' :: 'n' :: ' ' :: ((d :: ds) ++ " months".toList)).map Char.toLower) = _
      simp only [List.map_cons, List.map_append]
      rw [List.map_congr_left (fun x hx => toLower_of_digit x (hds x (List.mem_cons_of_mem d hx)))]
      rw [toLower_of_digit d (hds d (List.mem_cons_self d ds))]
      rw [(by decide : List.map Char.toLower " months".toList = " months".toList)]
      rw [(by decide : ('i').toLower = 'i')]
      rw [(by decide : ('n').toLower = 'n')]
      rw [(by decide : (' ').toLower = ' ')]
      simp
    have htw : (((d :: ds) ++ " months".toList).takeWhile Char.isDigit) = d :: ds :=
      takeWhile_append_cons _ _ _ _ hds (by decide)
    have hdw : (((d :: ds) ++ " months".toList).dropWhile Char.isDigit) = " months".toList :=
      dropWhile_append_cons _ _ _ _ hds (by decide)
    have hm : matchInMonths ('i' :: 'n' :: ' ' :: ((d :: ds) ++ " months".toList)) = true := by
      show (!(((d :: ds) ++ " months".toList).takeWhile Char.isDigit).isEmpty
          && ((((d :: ds) ++ " months".toList).dropWhile Char.isDigit == " month".toList)
              || (((d :: ds) ++ " months".toList).dropWhile Char.isDigit == " months".toList))) = true
      rw [htw, hdw]
      simp only [List.isEmpty_cons]
      decide
    unfold parseRelativeDate
    rw [hlow]
    unfold relativeTable
    split_ifs with h1 h2 h3 h4 h5 h6
    · exact absurd h1 (cons_ne_cons_of_ne _ _ (by decide))
    · exact absurd h2 (cons_ne_cons_of_ne _ _ (by decide))
    · exact absurd h3 (cons_ne_cons_of_ne _ _ (by decide))
    · exact absurd h4 (cons_ne_cons_of_ne _ _ (by decide))
    · exact absurd h5 (cons_ne_cons_of_ne _ _ (by decide))
    · exact absurd h6 (cons_ne_cons_of_ne _ _ (by decide))
    · rfl
  · rfl

/-- Witness for C9 at a concrete input ("in 5 months", reference time 0). -/
theorem c9_in_n_months_ignores_n_witness :
    parseRelativeDate noIso 0 (String.mk ('i' :: 'n' :: ' ' :: (['5'] ++ " months".toList)))
      = some (newDateYMD (getFullYear (todayFrom 0)) (getMonth (todayFrom 0) + 1)
          (getDate (todayFrom 0)))
    ∧ parseRelativeDate noIso 0 "next month"
      = some (newDateYMD (getFullYear (todayFrom 0)) (getMonth (todayFrom 0) + 1)
          (getDate (todayFrom 0))) :=
  c9_in_n_months_ignores_n 0 noIso '5' [] (by decide)

/- ===== Claim C2 ===== -/

/-- C2 (amended): `createTodoFromParsed` copies `isRecurring` verbatim from
the parsed input, while `recurringPattern` is present exactly when the
input is flagged recurring AND carries a recurrence description AND that
description parses.  Hence the claimed invariant "isRecurring iff pattern
present" fails precisely when the input is flagged recurring but no pattern
results: the degraded task keeps `isRecurring = true` with no pattern. -/
theorem c2_recurring_flag_copied (uuids : Nat → String) (isoParse : String → Option JSDate)
    (now : JSDate) (parsed : ParsedTodo) :
    (createTodoFromParsed uuids isoParse now parsed).isRecurring = parsed.isRecurring
    ∧ ((createTodoFromParsed uuids isoParse now parsed).recurringPattern.isSome ↔
        (parsed.isRecurring = true ∧ ∃ rp, parsed.recurringPattern = some rp
          ∧ (parseRecurringPattern rp.description).isSome)) := by
  unfold createTodoFromParsed attachRecurring
  cases hR : parsed.isRecurring with
  | false => simp [baseTodo, hR]
  | true =>
      cases hP : parsed.recurringPattern with
      | none => simp [baseTodo, hR, hP]
      | some rp =>
          cases hQ : parseRecurringPattern rp.description with
          | none => simp [baseTodo, hR, hP, hQ]
          | some pat => simp [baseTodo, hR, hP, hQ]

/-- C2 counterexample: an input flagged recurring whose description
("whenever it rains") matches no rule produces a task with
`isRecurring = true` but no `recurringPattern` — the "iff" invariant and
the "non-recurring on parse failure" behavior both fail on the flag. -/
theorem c2_counterexample :
    (createTodoFromParsed noUuids noIso 0 c2Parsed).isRecurring = true
    ∧ (createTodoFromParsed noUuids noIso 0 c2Parsed).recurringPattern = none :=
  ⟨rfl, rfl⟩

/- ===== Claim C3 ===== -/

theorem genInstances_length (uuids : Nat → String) (pid : String)
    (pattern : RecurringPattern) (now : JSDate) :
    ∀ (n : Nat) (current : JSDate) (idx : Nat),
      (genInstances uuids pid pattern now current idx n).length = n := by
  intro n
  induction n with
  | zero => intro current idx; rfl
  | succ m ih =>
      intro current idx
      simp [genInstances, ih]

theorem genInstances_mem (uuids : Nat → String) (pid : String)
    (pattern : RecurringPattern) (now : JSDate) :
    ∀ (n : Nat) (current : JSDate) (idx : Nat),
      ∀ inst ∈ genInstances uuids pid pattern now current idx n,
        inst.status = InstanceStatus.scheduled ∧ inst.parentId = pid := by
  intro n
  induction n with
  | zero => intro current idx inst h; simp [genInstances] at h
  | succ m ih =>
      intro current idx inst h
      simp only [genInstances, List.mem_cons] at h
      rcases h with h | h
      · subst h; exact ⟨rfl, rfl⟩
      · exact ih _ _ inst h

theorem genInstances_lb (uuids : Nat → String) (pid : String)
    (pattern : RecurringPattern) (now : JSDate) (hi : 1 ≤ pattern.interval) :
    ∀ (n : Nat) (current : JSDate) (idx : Nat),
      ∀ inst ∈ genInstances uuids pid pattern now current idx n,
        current < inst.scheduledDate := by
  intro n
  induction n with
  | zero => intro current idx inst h; simp [genInstances] at h
  | succ m ih =>
      intro current idx inst h
      have hnext := calculateNextDueDate_gt pattern now current hi
      simp only [genInstances, List.mem_cons] at h
      rcases h with h | h
      · subst h; exact hnext
      · exact lt_trans hnext (ih _ _ inst h)

theorem genInstances_pairwise (uuids : Nat → String) (pid : String)
    (pattern : RecurringPattern) (now : JSDate) (hi : 1 ≤ pattern.interval) :
    ∀ (n : Nat) (current : JSDate) (idx : Nat),
      (genInstances uuids pid pattern now current idx n).Pairwise
        (fun a b => a.scheduledDate < b.scheduledDate) := by
  intro n
  induction n with
  | zero => intro current idx; simp [genInstances]
  | succ m ih =>
      intro current idx
      simp only [genInstances, List.pairwise_cons]
      constructor
      · intro b hb
        exact genInstances_lb uuids pid pattern now hi m _ _ b hb
      · exact ih _ _

/-- C3: the §8 example — a task due 2024-01-01 with pattern {interval: 6,
unit: months} generates exactly the five dates 2024-07-01, 2025-01-01,
2025-07-01, 2026-01-01, 2026-07-01 — and in general, for every recurring
task with interval ≥ 1 and every count, `generateRecurringInstances`
returns exactly `count` occurrences, each `scheduled` with
`parentId = task.id`, strictly increasing in scheduled date, and returns
the empty list when the task is not recurring or has no pattern. -/
theorem c3_generate_instances :
    ((generateRecurringInstances noUuids 0 c3Task 5).map (fun i => i.scheduledDate)
        = [newDateYMD 2024 6 1, newDateYMD 2025 0 1, newDateYMD 2025 6 1,
           newDateYMD 2026 0 1, newDateYMD 2026 6 1])
    ∧ (∀ (uuids : Nat → String) (now : JSDate) (todo : Todo) (count : Nat),
        todo.isRecurring = false ∨ todo.recurringPattern = none →
          generateRecurringInstances uuids now todo count = [])
    ∧ (∀ (uuids : Nat → String) (now : JSDate) (todo : Todo) (count : Nat)
        (pattern : RecurringPattern),
        todo.isRecurring = true → todo.recurringPattern = some pattern →
        1 ≤ pattern.interval →
          (generateRecurringInstances uuids now todo count).length = count
          ∧ (∀ inst ∈ generateRecurringInstances uuids now todo count,
              inst.status = InstanceStatus.scheduled ∧ inst.parentId = todo.id)
          ∧ (generateRecurringInstances uuids now todo count).Pairwise
              (fun a b => a.scheduledDate < b.scheduledDate)) := by
  refine ⟨rfl, ?_, ?_⟩
  · intro uuids now todo count h
    unfold generateRecurringInstances
    rcases h with h | h
    · rw [h]
    · rw [h]
      cases todo.isRecurring <;> rfl
  · intro uuids now todo count pattern hR hP hi
    unfold generateRecurringInstances
    rw [hR, hP]
    exact ⟨genInstances_length uuids todo.id pattern now count _ 0,
           genInstances_mem uuids todo.id pattern now count _ 0,
           genInstances_pairwise uuids todo.id pattern now hi count _ 0⟩

/-- Witness for C3 at concrete inputs. -/
theorem c3_generate_instances_witness :
    generateRecurringInstances noUuids 0 c3TaskPlain 5 = []
    ∧ (generateRecurringInstances noUuids 0 c3Task 5).length = 5 :=
  ⟨c3_generate_instances.2.1 noUuids 0 c3TaskPlain 5 (Or.inl rfl),
   (c3_generate_instances.2.2 noUuids 0 c3Task 5 c3Pattern rfl rfl (by decide)).1⟩

/- ===== Reschedule lemmas and claims C4, C8, C10 ===== -/

theorem applyReschedule_length (fmt : JSDate → String) (insts : List TodoInstance) (k : Nat)
    (inst : TodoInstance) (newDate : JSDate) (propagate : Bool)
    (hk : k < insts.length) :
    (applyReschedule fmt insts k inst newDate propagate).length = insts.length := by
  unfold applyReschedule
  cases propagate with
  | false => simp
  | true =>
      simp only [if_true, List.length_append, List.length_take, List.length_map,
        List.length_drop, List.length_set]
      omega

theorem applyReschedule_lt (fmt : JSDate → String) (insts : List TodoInstance) (k : Nat)
    (inst : TodoInstance) (newDate : JSDate) (propagate : Bool)
    (hk : k < insts.length) (i : Nat) (hi : i < k) :
    (applyReschedule fmt insts k inst newDate propagate)[i]? = insts[i]? := by
  unfold applyReschedule
  cases propagate with
  | false => simp [List.getElem?_set_ne (show k ≠ i by omega)]
  | true =>
      rw [if_pos rfl]
      rw [List.getElem?_append_left (by simp [List.length_take]; omega)]
      rw [List.getElem?_take_of_lt (by omega)]
      exact List.getElem?_set_ne (show k ≠ i by omega)

theorem applyReschedule_at (fmt : JSDate → String) (insts : List TodoInstance) (k : Nat)
    (inst : TodoInstance) (newDate : JSDate) (propagate : Bool)
    (hk : k < insts.length) :
    (applyReschedule fmt insts k inst newDate propagate)[k]? =
      some (delayedCopy fmt inst newDate) := by
  unfold applyReschedule
  cases propagate with
  | false => simp [List.getElem?_set_self (by simpa using hk)]
  | true =>
      rw [if_pos rfl]
      rw [List.getElem?_append_left (by simp [List.length_take]; omega)]
      rw [List.getElem?_take_of_lt (by omega)]
      exact List.getElem?_set_self (by simpa using hk)

theorem applyReschedule_gt_true (fmt : JSDate → String) (insts : List TodoInstance) (k : Nat)
    (inst : TodoInstance) (newDate : JSDate)
    (hk : k < insts.length) (i : Nat) (hi : k < i) :
    (applyReschedule fmt insts k inst newDate true)[i]? =
      (insts[i]?).map (shiftInstance (newDate - inst.scheduledDate)) := by
  unfold applyReschedule
  rw [if_pos rfl]
  rw [List.getElem?_append_right (by simp [List.length_take]; omega)]
  rw [List.getElem?_map, List.getElem?_drop]
  have e1 : (((insts.set k (delayedCopy fmt inst newDate)).take (k + 1)).length) = k + 1 := by
    simp [List.length_take]
    omega
  rw [e1]
  have e2 : k + 1 + (i - (k + 1)) = i := by omega
  rw [e2]
  rw [List.getElem?_set_ne (show k ≠ i by omega)]

theorem applyReschedule_gt_false (fmt : JSDate → String) (insts : List TodoInstance) (k : Nat)
    (inst : TodoInstance) (newDate : JSDate)
    (i : Nat) (hi : k < i) :
    (applyReschedule fmt insts k inst newDate false)[i]? = insts[i]? := by
  unfold applyReschedule
  simp [List.getElem?_set_ne (show k ≠ i by omega)]

theorem string_append_ne_empty (s t : String) (hs : s.length ≠ 0) : s ++ t ≠ "" := by
  intro he
  have hl := congrArg String.length he
  rw [String.length_append] at hl
  have h0 : ("" : String).length = 0 := rfl
  omega

/-- C4: when the target occurrence is found at index k, rescheduling sets
its scheduledDate to newDate, its status to delayed, and a non-empty
delayReason citing the original date; with propagate=true every occurrence
after the target is shifted by exactly delta = newDate - original
scheduledDate with its status unchanged; with propagate=false the
occurrences after the target are unchanged. -/
theorem c4_reschedule_updates (fmt : JSDate → String) (todo : Todo) (instanceId : String)
    (newDate : JSDate) (propagate : Bool) (insts : List TodoInstance) (k : Nat)
    (inst : TodoInstance)
    (hinsts : todo.instances = some insts)
    (hfind : insts.findIdx? (fun i => i.id == instanceId) = some k)
    (hget : insts[k]? = some inst) :
    ∃ r, (rescheduleRecurringTodo fmt todo instanceId newDate propagate).instances = some r
      ∧ (∃ tgt, r[k]? = some tgt ∧ tgt.scheduledDate = newDate
          ∧ tgt.status = InstanceStatus.delayed
          ∧ tgt.delayReason = some ("Rescheduled from " ++ fmt inst.scheduledDate)
          ∧ "Rescheduled from " ++ fmt inst.scheduledDate ≠ "")
      ∧ (propagate = true → ∀ i old, k < i → insts[i]? = some old →
          ∃ nw, r[i]? = some nw
            ∧ nw.scheduledDate = old.scheduledDate + (newDate - inst.scheduledDate)
            ∧ nw.status = old.status)
      ∧ (propagate = false → ∀ i, k < i → r[i]? = insts[i]?) := by
  have hk : k < insts.length := by
    rcases List.getElem?_eq_some.1 hget with ⟨h, _⟩
    exact h
  refine ⟨applyReschedule fmt insts k inst newDate propagate, ?_, ?_, ?_, ?_⟩
  · simp only [rescheduleRecurringTodo, hinsts, hfind, hget]
  · exact ⟨delayedCopy fmt inst newDate,
      applyReschedule_at fmt insts k inst newDate propagate hk,
      rfl, rfl, rfl, string_append_ne_empty _ _ (by decide)⟩
  · intro hp i old hki hold
    subst hp
    refine ⟨shiftInstance (newDate - inst.scheduledDate) old, ?_, rfl, rfl⟩
    rw [applyReschedule_gt_true fmt insts k inst newDate hk i hki, hold]
    rfl
  · intro hp i hki
    subst hp
    exact applyReschedule_gt_false fmt insts k inst newDate i hki

/-- C8: when the occurrence id is not found among the task's occurrences
(including when the task has no occurrence list), rescheduling returns the
task unchanged (the very same value, hence deep-equal). -/
theorem c8_not_found_unchanged (fmt : JSDate → String) (todo : Todo) (instanceId : String)
    (newDate : JSDate) (propagate : Bool)
    (h : ∀ inst ∈ todo.instances.getD [], inst.id ≠ instanceId) :
    rescheduleRecurringTodo fmt todo instanceId newDate propagate = todo := by
  cases hins : todo.instances with
  | none => simp only [rescheduleRecurringTodo, hins]
  | some insts =>
      have hnone : insts.findIdx? (fun i => i.id == instanceId) = none := by
        rw [List.findIdx?_eq_none_iff]
        intro x hx
        simp only [beq_eq_false_iff_ne]
        exact h x (by rw [hins]; simpa using hx)
      simp only [rescheduleRecurringTodo, hins, hnone]

theorem applyReschedule_map_id (fmt : JSDate → String) (insts : List TodoInstance) (k : Nat)
    (inst : TodoInstance) (newDate : JSDate) (propagate : Bool)
    (hget : insts[k]? = some inst) :
    (applyReschedule fmt insts k inst newDate propagate).map (fun i => i.id)
      = insts.map (fun i => i.id) := by
  have hk : k < insts.length := (List.getElem?_eq_some.1 hget).1
  apply List.ext_getElem?
  intro n
  simp only [List.getElem?_map]
  rcases lt_trichotomy n k with h | h | h
  · rw [applyReschedule_lt fmt insts k inst newDate propagate hk n h]
  · rw [h]
    rw [applyReschedule_at fmt insts k inst newDate propagate hk, hget]
    rfl
  · cases propagate with
    | false => rw [applyReschedule_gt_false fmt insts k inst newDate n h]
    | true =>
        rw [applyReschedule_gt_true fmt insts k inst newDate hk n h]
        cases insts[n]? <;> rfl

/-- C10: rescheduling preserves the length and the ids (in order) of the
occurrence list; occurrences strictly before the target are unchanged in
every field, and occurrences after the target keep their id, status,
actualCompletedDate and delayReason in both propagate modes. -/
theorem c10_frame_preserved (fmt : JSDate → String) (todo : Todo) (instanceId : String)
    (newDate : JSDate) (propagate : Bool) :
    ((rescheduleRecurringTodo fmt todo instanceId newDate propagate).instances).map
        (List.map (fun i => i.id))
      = (todo.instances).map (List.map (fun i => i.id))
    ∧ (∀ (insts : List TodoInstance) (k : Nat) (inst : TodoInstance),
        todo.instances = some insts →
        insts.findIdx? (fun i => i.id == instanceId) = some k →
        insts[k]? = some inst →
        ∀ r, (rescheduleRecurringTodo fmt todo instanceId newDate propagate).instances = some r →
          r.length = insts.length
          ∧ (∀ i, i < k → r[i]? = insts[i]?)
          ∧ (∀ i old, k < i → insts[i]? = some old →
              ∃ nw, r[i]? = some nw ∧ nw.id = old.id ∧ nw.status = old.status
                ∧ nw.actualCompletedDate = old.actualCompletedDate
                ∧ nw.delayReason = old.delayReason)) := by
  constructor
  · cases hins : todo.instances with
    | none => simp only [rescheduleRecurringTodo, hins]
    | some insts =>
        cases hfind : insts.findIdx? (fun i => i.id == instanceId) with
        | none => simp only [rescheduleRecurringTodo, hins, hfind]
        | some k =>
            cases hget : insts[k]? with
            | none => simp only [rescheduleRecurringTodo, hins, hfind, hget]
            | some inst =>
                simp only [rescheduleRecurringTodo, hins, hfind, hget]
                exact congrArg some (applyReschedule_map_id fmt insts k inst newDate propagate hget)
  · intro insts k inst hins hfind hget r hr
    have hk : k < insts.length := (List.getElem?_eq_some.1 hget).1
    have hres : (rescheduleRecurringTodo fmt todo instanceId newDate propagate).instances
        = some (applyReschedule fmt insts k inst newDate propagate) := by
      simp only [rescheduleRecurringTodo, hins, hfind, hget]
    rw [hres] at hr
    injection hr with hr
    subst hr
    refine ⟨applyReschedule_length fmt insts k inst newDate propagate hk,
      fun i hi => applyReschedule_lt fmt insts k inst newDate propagate hk i hi, ?_⟩
    intro i old hki hold
    cases propagate with
    | false =>
        refine ⟨old, ?_, rfl, rfl, rfl, rfl⟩
        rw [applyReschedule_gt_false fmt insts k inst newDate i hki]
        exact hold
    | true =>
        refine ⟨shiftInstance (newDate - inst.scheduledDate) old, ?_, rfl, rfl, rfl, rfl⟩
        rw [applyReschedule_gt_true fmt insts k inst newDate hk i hki, hold]
        rfl

/-- Witness for C4 at a concrete input: moving occurrence "occ-b" (index 1
of 3) with propagate=true marks it delayed. -/
theorem c4_reschedule_updates_witness :
    ((applyReschedule fmt0 [instA, instB, instC] 1 instB (newDateYMD 2025 0 11) true)[1]?).map
        (fun t => t.status) = some InstanceStatus.delayed := by
  obtain ⟨r, h1, ⟨tgt, h2, h3, h4, h5, h6⟩, h7, h8⟩ :=
    c4_reschedule_updates fmt0 todoWithInstances "occ-b" (newDateYMD 2025 0 11) true
      [instA, instB, instC] 1 instB rfl rfl rfl
  have hres : (rescheduleRecurringTodo fmt0 todoWithInstances "occ-b"
      (newDateYMD 2025 0 11) true).instances
      = some (applyReschedule fmt0 [instA, instB, instC] 1 instB (newDateYMD 2025 0 11) true) :=
    rfl
  rw [hres] at h1
  injection h1 with h1
  rw [h1, h2]
  show some tgt.status = some InstanceStatus.delayed
  rw [h4]

/-- Witness for C8 at a concrete input. -/
theorem c8_not_found_unchanged_witness :
    rescheduleRecurringTodo fmt0 todoWithInstances "missing-id" 0 true = todoWithInstances :=
  c8_not_found_unchanged fmt0 todoWithInstances "missing-id" 0 true (by decide)

/-- Witness for C10 at a concrete input. -/
theorem c10_frame_preserved_witness :
    ((rescheduleRecurringTodo fmt0 todoWithInstances "occ-b" (newDateYMD 2025 0 11)
        true).instances).map (List.map (fun i => i.id))
      = (todoWithInstances.instances).map (List.map (fun i => i.id))
    ∧ (applyReschedule fmt0 [instA, instB, instC] 1 instB (newDateYMD 2025 0 11) true).length = 3
    ∧ (applyReschedule fmt0 [instA, instB, instC] 1 instB (newDateYMD 2025 0 11) true)[0]?
        = (([instA, instB, instC] : List TodoInstance))[0]?
    ∧ ((applyReschedule fmt0 [instA, instB, instC] 1 instB (newDateYMD 2025 0 11) true)[2]?).map
        (fun t => t.id) = some instC.id := by
  have h := c10_frame_preserved fmt0 todoWithInstances "occ-b" (newDateYMD 2025 0 11) true
  obtain ⟨hlen, hlt, hgt⟩ := h.2 [instA, instB, instC] 1 instB rfl rfl rfl
    (applyReschedule fmt0 [instA, instB, instC] 1 instB (newDateYMD 2025 0 11) true) rfl
  obtain ⟨nw, hnw, hid, _, _, _⟩ := hgt 2 instC (by decide) rfl
  refine ⟨h.1, hlen, hlt 0 (by decide), ?_⟩
  rw [hnw]
  show some nw.id = some instC.id
  rw [hid]
